import Mathlib

/-!
Shallow embedding of the retry-and-resilience engine of the `fetchy` HTTP
helper library, together with theorems settling the frozen claims about it.

The primary variant lives in `src/main.ts`; an older variant (the one that
carries the retryable-status-code set and the multi-header retry hints) is
embedded in namespace `V6`.

Modelling conventions:
- JS numbers are modelled as `ℚ`; the value `Infinity` produced by
  `_parseRetryAfter` is modelled by `⊤` in `WithTop ℚ`.
- The ambient environment (date parsing and the current clock, both used by
  `new Date(value).getTime() - Date.now()`) is a parameter `TimeEnv`;
  body parsing of responses is a parameter of `Env`.
- The network transport is a function `ℕ → Outcome` giving the outcome of
  the n-th `fetch` call (a response, or a thrown value).
- The retry loop is defined with an explicit fuel argument equal to the
  (ceiling of the) attempt budget; the loop re-checks the real loop
  condition `i < opts.maxAttempts` at every step, and since `maxAttempts`
  never increases and `i` increases by one per iteration, fuel exhaustion
  coincides exactly with the loop condition turning false, so the fuel-0
  case and the condition-false case both perform the trailing post-loop
  fetch, exactly as the source does.
-/

namespace Fetchy

/-- Error message used to simulate immediate failures without retry (source
constant `NO_RETRY_ERROR`). -/
def NO_RETRY_ERROR : String := "$$_NO_RETRY_$$"

/-- The request target identity; the source accepts `string | URL | Request`,
all of which are identified by their URL here. -/
abbrev Input := String

/-- Redirect policy (`"follow" | "error" | "manual"`). -/
inductive Redirect where
  | follow
  | error
  | manual
deriving DecidableEq, Repr

/-- Response headers: a list of name/value pairs with case-insensitive
lookup, as JS `Headers` provides. -/
abbrev Headers := List (String × String)

/-- Case-insensitive `Headers.has`. -/
def Headers.has (h : Headers) (name : String) : Bool :=
  h.any (fun p => p.1.toLower == name.toLower)

/-- Case-insensitive `Headers.get` (first matching value). -/
def Headers.get (h : Headers) (name : String) : Option String :=
  (h.find? (fun p => p.1.toLower == name.toLower)).map (fun p => p.2)

/-- The observable part of a fetch `Response`. -/
structure Response where
  ok : Bool
  status : ℕ
  statusText : String
  redirected : Bool
  url : String
  headers : Headers
deriving DecidableEq, Repr

/-- A value thrown by the transport (`fetch`): whether it is an `Error`
instance, plus its `name` and `message`. -/
structure Thrown where
  isError : Bool
  name : String
  message : String
deriving DecidableEq, Repr

/-- Outcome of one transport call: a response, or a thrown value. -/
inductive Outcome where
  | ok (r : Response)
  | thrown (t : Thrown)
deriving DecidableEq, Repr

/-- Errors that the retry engine itself can raise or propagate. -/
inductive FetchErr where
  | redirectErr (status : ℕ) (message : String)
  | httpStatus (message : String) (status : ℕ) (body : String)
  | thrown (t : Thrown)
deriving DecidableEq, Repr

/-- The check `e instanceof Error && e.message == NO_RETRY_ERROR` performed
in the loop's catch block; `RedirectError` and `HTTPStatusError` extend
`Error`, so only the message is compared for those. -/
def FetchErr.isSentinel : FetchErr → Bool
  | .redirectErr _ msg => msg == NO_RETRY_ERROR
  | .httpStatus msg _ _ => msg == NO_RETRY_ERROR
  | .thrown t => t.isError && t.message == NO_RETRY_ERROR

/-- Internal normalized options (`interface Options` of the source). -/
structure Options where
  timeout : ℚ
  delay : ℚ
  interval : ℚ
  maxInterval : ℚ
  maxAttempts : ℚ
  retryAfter : Bool
  native : Bool
  redirect : Redirect
deriving DecidableEq, Repr

/-- Default configuration values (`_DEFAULT`). -/
def _DEFAULT : Options :=
  { timeout := 15
    delay := 0
    interval := 3
    maxInterval := 30
    maxAttempts := 3
    retryAfter := true
    native := false
    redirect := .follow }

/-- The slice of `RequestInit` the retry engine reads or writes: the method
(rewritten on 303 redirects) and whether the combined abort signal has
fired (`init.signal?.aborted`). -/
structure RequestInit where
  method : String
  signalAborted : Bool
deriving DecidableEq, Repr

/-- Ambient environment for header parsing: `dateParse v` models
`new Date(v).getTime()` (in ms, `none` = invalid date / NaN) and `now`
models `Date.now()`. -/
structure TimeEnv where
  dateParse : String → Option ℤ
  now : ℤ

/-- JS `Number.parseInt(value, 10)`: skip leading whitespace, optional
sign, then the longest decimal-digit prefix; `none` models NaN. -/
def parseIntJS (s : String) : Option ℤ :=
  let cs := s.toList.dropWhile Char.isWhitespace
  let signed : ℤ × List Char :=
    match cs with
    | '-' :: r => (-1, r)
    | '+' :: r => (1, r)
    | _ => (1, cs)
  let ds := signed.2.takeWhile Char.isDigit
  if ds.isEmpty then none
  else some (signed.1 * (ds.foldl (fun acc c => acc * 10 + (c.toNat - '0'.toNat)) 0 : ℕ))

/-- `_parseRetryAfter`: parses a Retry-After header value to seconds,
returning `⊤` (Infinity) when empty or unparseable. -/
def _parseRetryAfter (env : TimeEnv) (value : String) : WithTop ℚ :=
  if value = "" then ⊤
  else
    match parseIntJS value with
    | some n => ((n : ℚ) : WithTop ℚ)
    | none =>
      match env.dateParse value with
      | some t => (((⌈((t - env.now : ℚ) / 1000)⌉ : ℤ) : ℚ) : WithTop ℚ)
      | none => ⊤

/-- `_getNextInterval`: next retry interval, honoring a Retry-After header
when `opts.retryAfter` is set, otherwise exponential backoff
`min(max(1, interval) ^ count, maxInterval)`. -/
def _getNextInterval (env : TimeEnv) (count : ℕ) (opts : Options) (resp : Option Response) :
    WithTop ℚ :=
  if opts.retryAfter ∧ (resp.map (fun r => r.headers.has "Retry-After")).getD false then
    max (_parseRetryAfter env (((resp.bind (fun r => r.headers.get "Retry-After")).map
          String.trim).getD ""))
        ((opts.interval : ℚ) : WithTop ℚ)
  else ((min ((max 1 opts.interval) ^ count) opts.maxInterval : ℚ) : WithTop ℚ)

/-- `_shouldRedirect`: 3xx status. -/
def _shouldRedirect (r : Response) : Bool :=
  r.status < 400 && r.status ≥ 300

/-- `_shouldCorrectRequest`: 4xx status. -/
def _shouldCorrectRequest (r : Response) : Bool :=
  r.status < 500 && r.status ≥ 400

/-- The message of `RedirectError.fromResponse`. -/
def redirectMsg (r : Response) : String :=
  (toString r.status ++ " " ++ r.statusText).trim

/-- Tail of `_shouldNotRetry`: compute the next interval, stop if it
exceeds the ceiling, otherwise wait (timing not modelled) and continue. -/
def _intervalStep (env : TimeEnv) (count : ℕ) (opts : Options) (resp : Option Response) :
    Except (FetchErr × Options) (Bool × Options) :=
  if _getNextInterval env count opts resp > ((opts.maxInterval : ℚ) : WithTop ℚ) then
    .ok (true, opts)
  else .ok (false, opts)

/-- `_shouldNotRetry`: decides whether the loop must stop (`true`) or
continue (`false`); throwing `RedirectError` is modelled by the `.error`
constructor, which carries the mutated options (`opts.maxAttempts = 0`). -/
def _shouldNotRetry (env : TimeEnv) (count : ℕ) (init : RequestInit) (opts : Options)
    (resp : Option Response) : Except (FetchErr × Options) (Bool × Options) :=
  if (count : ℚ) ≥ opts.maxAttempts - 1 ∨ init.signalAborted then .ok (true, opts)
  else
    match resp with
    | some r =>
      if r.ok ∨ _shouldCorrectRequest r ∨ opts.native then .ok (true, opts)
      else if _shouldRedirect r ∧ opts.redirect = .manual then .ok (true, opts)
      else if _shouldRedirect r ∧ opts.redirect = .error then
        .error (.redirectErr r.status (redirectMsg r), { opts with maxAttempts := 0 })
      else _intervalStep env count opts (some r)
    | none => _intervalStep env count opts none

/-- `_handleRedirectResponse`: updates URL and method for redirect
responses; returns the (possibly) new target and the (possibly) mutated
init. -/
def _handleRedirectResponse (url : Input) (init : RequestInit) (resp : Response) :
    Input × RequestInit :=
  if !resp.redirected then (url, init)
  else if resp.status = 303 then (resp.url, { init with method := "GET" })
  else (resp.url, init)

/-- `_cloneInput`: cloning a `Request` is identity on the target identity
modelled here. -/
def _cloneInput (url : Input) (_required : Bool) : Input := url

instance : DecidableEq (Except FetchErr Response) :=
  fun a b =>
    match a, b with
    | .ok x, .ok y => if h : x = y then isTrue (by rw [h]) else isFalse (by simp [h])
    | .error x, .error y => if h : x = y then isTrue (by rw [h]) else isFalse (by simp [h])
    | .ok _, .error _ => isFalse (by simp)
    | .error _, .ok _ => isFalse (by simp)

/-- Result of one run of the retry loop: the outcome, the number of
transport calls made, and whether the trailing post-loop fetch ran. -/
structure RunResult where
  outcome : Except FetchErr Response
  calls : ℕ
  postLoop : Bool
deriving DecidableEq, Repr

/-- The trailing `return await _fetchWithJitter(url, init, opts)` after the
for-loop. -/
def _postLoopFetch (transport : ℕ → Outcome) (calls : ℕ) : RunResult :=
  match transport calls with
  | .ok r => ⟨.ok r, calls + 1, true⟩
  | .thrown t => ⟨.error (.thrown t), calls + 1, true⟩

/-- The catch block of the loop body: rethrow the sentinel error, consult
`_shouldNotRetry` without a response, rethrow or continue.  `.inl` is a
terminal result (with its call count), `.inr` is the state for the next
iteration. -/
def _catchStep (env : TimeEnv) (i : ℕ) (url : Input) (init : RequestInit) (opts : Options)
    (calls : ℕ) (e : FetchErr) :
    (Except FetchErr Response × ℕ) ⊕ (Input × RequestInit × Options × ℕ) :=
  if e.isSentinel then .inl (.error e, calls)
  else
    match _shouldNotRetry env i init opts none with
    | .ok (true, _) => .inl (.error e, calls)
    | .ok (false, opts') => .inr (url, init, opts', calls)
    | .error (e2, _) => .inl (.error e2, calls)

/-- One iteration of the loop body of `_fetchWithRetry`: one transport
call, then either a terminal result (`.inl`) or the state for the next
iteration (`.inr`). -/
def _attemptStep (env : TimeEnv) (transport : ℕ → Outcome) (i : ℕ) (url : Input)
    (init : RequestInit) (opts : Options) (calls : ℕ) :
    (Except FetchErr Response × ℕ) ⊕ (Input × RequestInit × Options × ℕ) :=
  match transport calls with
  | .ok resp =>
    match _shouldNotRetry env i init opts (some resp) with
    | .ok (true, _) => .inl (.ok resp, calls + 1)
    | .ok (false, opts') =>
      let p := _handleRedirectResponse (_cloneInput url (decide ((i : ℚ) < opts.maxAttempts - 1)))
        init resp
      .inr (p.1, p.2, opts', calls + 1)
    | .error (e, opts') => _catchStep env i url init opts' (calls + 1) e
  | .thrown t => _catchStep env i url init opts (calls + 1) (.thrown t)

/-- The `for (let i = 0; i < opts.maxAttempts; i++)` loop of
`_fetchWithRetry`, with fuel (see file header). -/
def _retryLoop (env : TimeEnv) (transport : ℕ → Outcome) :
    ℕ → ℕ → Input → RequestInit → Options → ℕ → RunResult
  | 0, _, _, _, _, calls => _postLoopFetch transport calls
  | fuel + 1, i, url, init, opts, calls =>
    if (i : ℚ) < opts.maxAttempts then
      match _attemptStep env transport i url init opts calls with
      | .inl (out, calls') => ⟨out, calls', false⟩
      | .inr (url', init', opts', calls') =>
        _retryLoop env transport fuel (i + 1) url' init' opts' calls'
    else _postLoopFetch transport calls

/-- `_fetchWithRetry`: executes fetch with retry logic. -/
def _fetchWithRetry (env : TimeEnv) (transport : ℕ → Outcome) (url : Input)
    (init : RequestInit) (opts : Options) : RunResult :=
  _retryLoop env transport (Int.toNat ⌈opts.maxAttempts⌉) 0 url init opts 0

/-! Option normalization (`_correctNumber`, `_getRetryOption`, `_getOptions`)
and the boundary layer (`_main`, `sfetchy`). -/

/-- JS `Math.trunc`: rounds toward zero. -/
def jsTrunc (q : ℚ) : ℤ :=
  if q < 0 then ⌈q⌉ else ⌊q⌋

/-- `_correctNumber`: corrects a number to be non-negative, using the
default if undefined or negative, truncating when `integer` is set. -/
def _correctNumber (dflt : ℚ) (num : Option ℚ) (integer : Bool) : ℚ :=
  match num with
  | none => dflt
  | some n => if n < 0 then dflt else if integer then (jsTrunc n : ℚ) else n

/-- The user-facing `RetryOptions` bag (all fields optional). -/
structure RetryOptions where
  maxAttempts : Option ℚ := none
  interval : Option ℚ := none
  maxInterval : Option ℚ := none
  retryAfter : Option Bool := none
deriving DecidableEq, Repr

/-- The property names `_getRetryOption` is called with. -/
inductive RProp where
  | interval
  | maxInterval
  | maxAttempts
  | retryAfter
deriving DecidableEq, Repr

/-- A retry option value: a number or a boolean (`options[prop]`). -/
inductive RVal where
  | num (q : ℚ)
  | bool (b : Bool)
deriving DecidableEq, Repr

/-- Numeric content of an `RVal` (TS typing guarantees the tag). -/
def RVal.toNum : RVal → ℚ
  | .num q => q
  | .bool _ => 0

/-- Boolean content of an `RVal` (TS typing guarantees the tag). -/
def RVal.toBool : RVal → Bool
  | .num _ => false
  | .bool b => b

/-- `options[prop]` lookup on a `RetryOptions` bag. -/
def RetryOptions.prop : RetryOptions → RProp → Option RVal
  | o, .interval => o.interval.map RVal.num
  | o, .maxInterval => o.maxInterval.map RVal.num
  | o, .maxAttempts => o.maxAttempts.map RVal.num
  | o, .retryAfter => o.retryAfter.map RVal.bool

/-- `_DEFAULT[prop]` lookup. -/
def _DEFAULT_prop : RProp → RVal
  | .interval => .num _DEFAULT.interval
  | .maxInterval => .num _DEFAULT.maxInterval
  | .maxAttempts => .num _DEFAULT.maxAttempts
  | .retryAfter => .bool _DEFAULT.retryAfter

/-- `_getRetryOption`: retry option value with fallback to the default;
`options` is `undefined`, a boolean (`retry: false`), or a bag. -/
def _getRetryOption (prop : RProp) (off : RVal) (options : Option (Bool ⊕ RetryOptions)) :
    RVal :=
  match options with
  | some (.inl _) => off
  | none => _DEFAULT_prop prop
  | some (.inr o) =>
    match o.prop prop with
    | none => _DEFAULT_prop prop
    | some (.num v) =>
      .num (_correctNumber (_DEFAULT_prop prop).toNum (some v) (prop == .maxAttempts))
    | some (.bool b) => .bool b

/-- The user-facing `FetchyOptions` bag (the fields the engine reads);
`signalAborted` models whether the caller-supplied abort signal has already
fired. -/
structure FetchyOptions where
  url : Option String := none
  method : Option String := none
  body : Option String := none
  timeout : Option ℚ := none
  delay : Option ℚ := none
  retry : Option (Bool ⊕ RetryOptions) := none
  native : Option Bool := none
  redirect : Option Redirect := none
  signalAborted : Bool := false

/-- `_getOptions`: converts `FetchyOptions` to the internal normalized
`Options`. -/
def _getOptions (options : Option FetchyOptions) : Options :=
  { timeout := _correctNumber _DEFAULT.timeout (options.bind FetchyOptions.timeout) false
    delay := _correctNumber _DEFAULT.delay (options.bind FetchyOptions.delay) false
    interval :=
      (_getRetryOption .interval (.num 0) (options.bind FetchyOptions.retry)).toNum
    maxInterval :=
      (_getRetryOption .maxInterval (.num 0) (options.bind FetchyOptions.retry)).toNum
    maxAttempts :=
      (_getRetryOption .maxAttempts (.num 0) (options.bind FetchyOptions.retry)).toNum
    retryAfter :=
      (_getRetryOption .retryAfter (.bool false) (options.bind FetchyOptions.retry)).toBool
    native := (options.bind FetchyOptions.native).getD _DEFAULT.native
    redirect := (options.bind FetchyOptions.redirect).getD _DEFAULT.redirect }

/-- `_getRequestInit` (the slice the engine reads): resolves the method
(`method ? method : body == void 0 ? "GET" : "POST"`; the `Request`-input
branch coincides with the target identity here) and the combined abort
signal's initial state. -/
def _getRequestInit (_url : Input) (_opts : Options) (options : Option FetchyOptions) :
    RequestInit :=
  { method :=
      match options.bind FetchyOptions.method with
      | some m =>
        if m = "" then (if (options.bind FetchyOptions.body).isSome then "POST" else "GET")
        else m
      | none => if (options.bind FetchyOptions.body).isSome then "POST" else "GET"
    signalAborted := (options.map FetchyOptions.signalAborted).getD false }

/-- Response body parsing methods. -/
inductive ParseMethod where
  | text
  | json
  | bytes
  | blob
  | buffer
  | form
deriving DecidableEq, Repr

/-- Full ambient environment: time, plus body parsing of responses
(`resp.json()` etc., which may reject) abstracted as string-valued
oracles. -/
structure Env extends TimeEnv where
  parseOf : Response → ParseMethod → Except Thrown String
  textOf : Response → Except Thrown String

/-- `_parseBody`: parses a response body by the given method; rejection is
a thrown value. -/
def _parseBody (env : Env) (resp : Response) (method : ParseMethod) : Except Thrown String :=
  env.parseOf resp method

/-- `HTTPStatusError.fromResponse`: reads the body text (which may itself
reject) and builds the error. -/
def httpStatusErrorFromResponse (env : Env) (resp : Response) : Except Thrown FetchErr :=
  match env.textOf resp with
  | .error t => .error t
  | .ok body =>
    let bodyMsg :=
      if body.length > 80 then
        body.take 80 ++ "... (more " ++ toString (body.length - 80) ++ " chars)"
      else if body = "" then "(no response body)"
      else body
    .ok (.httpStatus (toString resp.status ++ " " ++ resp.statusText ++ ": " ++ bodyMsg)
      resp.status body)

/-- What `_main` resolves to: a raw response, or a parsed body. -/
inductive MainReturn where
  | resp (r : Response)
  | parsed (v : String)

/-- `_main`: main procedure of `fetchy` and `sfetchy`. -/
def _main (env : Env) (transport : ℕ → Outcome) (url : Option Input)
    (options : Option FetchyOptions) (parse : Option ParseMethod) :
    Except FetchErr MainReturn :=
  let u : Input :=
    match url with
    | none => (options.bind FetchyOptions.url).getD ""
    | some s => if s = "" then (options.bind FetchyOptions.url).getD "" else s
  let opts := _getOptions options
  let run := _fetchWithRetry env.toTimeEnv transport u (_getRequestInit u opts options) opts
  match run.outcome with
  | .error e => .error e
  | .ok resp =>
    if ¬resp.ok ∧ ¬opts.native then
      match httpStatusErrorFromResponse env resp with
      | .error t => .error (.thrown t)
      | .ok he => .error he
    else
      match parse with
      | none => .ok (.resp resp)
      | some m =>
        match _parseBody env resp m with
        | .ok v => .ok (.parsed v)
        | .error t => .error (.thrown t)

/-- `sfetchy`: calls `_main` and converts any thrown error to `none`
(never throws). -/
def sfetchy (env : Env) (transport : ℕ → Outcome) (url : Option Input)
    (options : Option FetchyOptions) (parse : Option ParseMethod) : Option MainReturn :=
  match _main env transport url options parse with
  | .ok v => some v
  | .error _ => none

end Fetchy

namespace V6

/-!
Embedding of the older library variant (source file `part_006`), which
carries the retryable-status-code set `zstatusCodes` and the prioritized
retry-hint header list `zrespects`.
-/

open Fetchy (Headers Response Thrown TimeEnv parseIntJS)

/-- Internal normalized options of the `part_006` variant. -/
structure Options where
  ztimeout : ℚ
  zjitter : ℚ
  zinterval : ℚ
  zmaxInterval : ℚ
  zmaxAttempts : ℚ
  zonTimeout : Bool
  znoIdempotent : Bool
  zstatusCodes : List ℕ
  zrespects : List String
  znative : Bool
deriving DecidableEq, Repr

/-- Default configuration values of the `part_006` variant. -/
def _DEFAULT : Options :=
  { ztimeout := 15
    zjitter := 0
    zinterval := 3
    zmaxInterval := 30
    zmaxAttempts := 3
    zonTimeout := true
    znoIdempotent := false
    zstatusCodes := [500, 502, 503, 504, 408, 429]
    zrespects := ["retry-after", "ratelimit-reset", "x-ratelimit-reset"]
    znative := false }

/-- `_parseRetryHeader`: parses a retry header value to seconds; `none`
models NaN (empty/missing value, or both parses failing). -/
def _parseRetryHeader (env : TimeEnv) (value : Option String) : Option ℤ :=
  match value with
  | none => none
  | some v =>
    if v = "" then none
    else
      match parseIntJS v with
      | some n => some n
      | none => (env.dateParse v).map (fun t => ⌈((t - env.now : ℚ) / 1000)⌉)

/-- Loop body of `_findRetryHeader` over the prioritized header names. -/
def _findRetryHeaderGo (env : TimeEnv) (opts : Options) (headers : Headers) :
    List String → Option ℚ
  | [] => none
  | name :: rest =>
    match _parseRetryHeader env ((headers.get name).map String.trim) with
    | some v => some (max (v : ℚ) opts.zinterval)
    | none => _findRetryHeaderGo env opts headers rest

/-- `_findRetryHeader`: first parsable retry-hint header, floored at
`zinterval`; `none` when none parses. -/
def _findRetryHeader (env : TimeEnv) (opts : Options) (headers : Headers) : Option ℚ :=
  _findRetryHeaderGo env opts headers opts.zrespects

/-- `_getNextInterval` of the `part_006` variant: header-driven when any
recognized header is present (`?? zinterval` when none parses), otherwise
`min(zinterval * 2 ^ count, zmaxInterval)`. -/
def _getNextInterval (env : TimeEnv) (count : ℕ) (opts : Options) (headers : Headers) : ℚ :=
  if opts.zrespects.any (fun x => headers.has x) then
    (_findRetryHeader env opts headers).getD opts.zinterval
  else min (opts.zinterval * 2 ^ count) opts.zmaxInterval

/-- `_shouldRetry` of the `part_006` variant: `true` to retry. -/
def _shouldRetry (env : TimeEnv) (count : ℕ) (opts : Options)
    (r : Response ⊕ Thrown) : Bool :=
  if opts.znoIdempotent ∨ (count : ℚ) ≥ opts.zmaxAttempts - 1 then false
  else
    match r with
    | .inl resp =>
      if opts.znative ∨ ¬(resp.status ∈ opts.zstatusCodes) then false
      else if _getNextInterval env count opts resp.headers > opts.zmaxInterval then false
      else true
    | .inr t => t.isError && t.name == "TimeoutError" && opts.zonTimeout

end V6

namespace Fetchy

/-! Helper lemmas about the decision function and the loop body. -/

/-- Any `.ok` result of `_shouldNotRetry` leaves the options untouched, and
a continue verdict (`false`) implies attempts remain. -/
theorem _shouldNotRetry_ok {env : TimeEnv} {count : ℕ} {init : RequestInit} {opts : Options}
    {resp : Option Response} {b : Bool} {o : Options}
    (h : _shouldNotRetry env count init opts resp = .ok (b, o)) :
    o = opts ∧ (b = false → (count : ℚ) < opts.maxAttempts - 1) := by
  unfold _shouldNotRetry _intervalStep at h
  split at h
  case isTrue hc =>
    simp only [Except.ok.injEq, Prod.mk.injEq] at h
    exact ⟨h.2.symm, fun hb => by rw [← h.1] at hb; exact absurd hb (by simp)⟩
  case isFalse hc =>
    push_neg at hc
    split at h
    case h_1 r =>
      split at h
      · simp only [Except.ok.injEq, Prod.mk.injEq] at h
        exact ⟨h.2.symm, fun hb => by rw [← h.1] at hb; exact absurd hb (by simp)⟩
      · split at h
        · simp only [Except.ok.injEq, Prod.mk.injEq] at h
          exact ⟨h.2.symm, fun hb => by rw [← h.1] at hb; exact absurd hb (by simp)⟩
        · split at h
          · exact absurd h (by simp)
          · split at h <;> simp only [Except.ok.injEq, Prod.mk.injEq] at h
            · exact ⟨h.2.symm, fun hb => by rw [← h.1] at hb; exact absurd hb (by simp)⟩
            · exact ⟨h.2.symm, fun _ => hc.1⟩
    case h_2 =>
      split at h <;> simp only [Except.ok.injEq, Prod.mk.injEq] at h
      · exact ⟨h.2.symm, fun hb => by rw [← h.1] at hb; exact absurd hb (by simp)⟩
      · exact ⟨h.2.symm, fun _ => hc.1⟩

/-- Any `.error` result of `_shouldNotRetry` (the thrown `RedirectError`)
carries the options with the attempt budget forced to zero. -/
theorem _shouldNotRetry_error {env : TimeEnv} {count : ℕ} {init : RequestInit} {opts : Options}
    {resp : Option Response} {e : FetchErr} {o : Options}
    (h : _shouldNotRetry env count init opts resp = .error (e, o)) :
    o = { opts with maxAttempts := 0 } := by
  unfold _shouldNotRetry _intervalStep at h
  split at h
  · exact absurd h (by simp)
  · split at h
    case h_1 r =>
      split at h
      · exact absurd h (by simp)
      · split at h
        · exact absurd h (by simp)
        · split at h
          · simp only [Except.error.injEq, Prod.mk.injEq] at h
            exact h.2.symm
          · split at h <;> exact absurd h (by simp)
    case h_2 =>
      split at h <;> exact absurd h (by simp)

/-- A next-iteration result of the catch block keeps the options and the
call count, and implies attempts remain. -/
theorem _catchStep_inr {env : TimeEnv} {i : ℕ} {url : Input} {init : RequestInit}
    {opts : Options} {calls : ℕ} {e : FetchErr} {u' : Input} {n' : RequestInit}
    {o' : Options} {c' : ℕ}
    (h : _catchStep env i url init opts calls e = .inr (u', n', o', c')) :
    o' = opts ∧ c' = calls ∧ (i : ℚ) < opts.maxAttempts - 1 := by
  unfold _catchStep at h
  split at h
  · exact absurd h (by simp)
  · split at h
    case h_1 => exact absurd h (by simp)
    case h_2 x opts' heq =>
      simp only [Sum.inr.injEq, Prod.mk.injEq] at h
      obtain ⟨hsr1, hsr2⟩ := _shouldNotRetry_ok heq
      exact ⟨h.2.2.1.symm.trans hsr1, h.2.2.2.symm, hsr2 rfl⟩
    case h_3 => exact absurd h (by simp)

/-- A terminal result of the catch block keeps the call count. -/
theorem _catchStep_inl {env : TimeEnv} {i : ℕ} {url : Input} {init : RequestInit}
    {opts : Options} {calls : ℕ} {e : FetchErr} {out : Except FetchErr Response} {c' : ℕ}
    (h : _catchStep env i url init opts calls e = .inl (out, c')) :
    c' = calls := by
  unfold _catchStep at h
  split at h
  · simp only [Sum.inl.injEq, Prod.mk.injEq] at h
    exact h.2.symm
  · split at h <;> first
      | (simp only [Sum.inl.injEq, Prod.mk.injEq] at h; exact h.2.symm)
      | exact absurd h (by simp)

/-- A next-iteration result of one loop-body iteration keeps the options,
made exactly one transport call, and implies attempts remain. -/
theorem _attemptStep_inr {env : TimeEnv} {transport : ℕ → Outcome} {i : ℕ} {url : Input}
    {init : RequestInit} {opts : Options} {calls : ℕ} {u' : Input} {n' : RequestInit}
    {o' : Options} {c' : ℕ}
    (h : _attemptStep env transport i url init opts calls = .inr (u', n', o', c')) :
    o' = opts ∧ c' = calls + 1 ∧ (i : ℚ) < opts.maxAttempts - 1 := by
  unfold _attemptStep at h
  split at h
  case h_1 resp heq =>
    split at h
    case h_1 => exact absurd h (by simp)
    case h_2 x opts' hsr =>
      simp only [Sum.inr.injEq, Prod.mk.injEq] at h
      obtain ⟨h1, h2⟩ := _shouldNotRetry_ok hsr
      exact ⟨h.2.2.1.symm.trans h1, h.2.2.2.symm, h2 rfl⟩
    case h_3 e opts' hsr =>
      obtain ⟨h1, h2, h3⟩ := _catchStep_inr h
      rw [_shouldNotRetry_error hsr] at h3
      exfalso
      simp only [Options.maxAttempts] at h3
      have h0 : (0 : ℚ) ≤ (i : ℚ) := Nat.cast_nonneg i
      linarith
  case h_2 t heq =>
    exact _catchStep_inr h

/-- A terminal result of one loop-body iteration made exactly one transport
call. -/
theorem _attemptStep_inl {env : TimeEnv} {transport : ℕ → Outcome} {i : ℕ} {url : Input}
    {init : RequestInit} {opts : Options} {calls : ℕ} {out : Except FetchErr Response}
    {c' : ℕ}
    (h : _attemptStep env transport i url init opts calls = .inl (out, c')) :
    c' = calls + 1 := by
  unfold _attemptStep at h
  split at h
  case h_1 resp heq =>
    split at h
    case h_1 =>
      simp only [Sum.inl.injEq, Prod.mk.injEq] at h
      exact h.2.symm
    case h_2 => exact absurd h (by simp)
    case h_3 => exact _catchStep_inl h
  case h_2 t heq =>
    exact _catchStep_inl h

/-- Loop invariant: started at iteration `i` with enough fuel, the loop
never reaches the trailing post-loop fetch and makes at most `fuel` more
transport calls. -/
theorem _retryLoop_bound (env : TimeEnv) (transport : ℕ → Outcome) :
    ∀ (fuel i : ℕ) (url : Input) (init : RequestInit) (opts : Options) (calls : ℕ),
      (i : ℚ) < opts.maxAttempts → opts.maxAttempts ≤ (i : ℚ) + (fuel : ℚ) →
      (_retryLoop env transport fuel i url init opts calls).calls ≤ calls + fuel ∧
      (_retryLoop env transport fuel i url init opts calls).postLoop = false := by
  intro fuel
  induction fuel with
  | zero =>
    intro i url init opts calls hlt hle
    exact absurd (lt_of_lt_of_le hlt (by simpa using hle)) (lt_irrefl _)
  | succ fuel ih =>
    intro i url init opts calls hlt hle
    rw [_retryLoop, if_pos hlt]
    rcases hstep : _attemptStep env transport i url init opts calls with ⟨out, c'⟩ | ⟨u', n', o', c'⟩
    · have hc := _attemptStep_inl hstep
      exact ⟨by dsimp only; omega, by dsimp only⟩
    · obtain ⟨ho, hc, hrem⟩ := _attemptStep_inr hstep
      subst hc
      dsimp only
      rw [ho]
      have h1 : ((i + 1 : ℕ) : ℚ) < opts.maxAttempts := by push_cast; linarith
      have h2 : opts.maxAttempts ≤ ((i + 1 : ℕ) : ℚ) + (fuel : ℚ) := by
        push_cast at hle ⊢; linarith
      obtain ⟨hb, hp⟩ := ih (i + 1) u' n' opts (calls + 1) h1 h2
      exact ⟨by omega, hp⟩

end Fetchy

namespace Fetchy

/-! Concrete fixtures used by witnesses and counterexamples. -/

/-- An environment whose date parser rejects every string. -/
def env0 : TimeEnv := { dateParse := fun _ => none, now := 0 }

/-- A plain 500 response. -/
def resp500 : Response :=
  { ok := false, status := 500, statusText := "Internal Server Error", redirected := false,
    url := "https://a.example/x", headers := [] }

/-- A plain 301 redirect response. -/
def resp301 : Response :=
  { ok := false, status := 301, statusText := "Moved Permanently", redirected := false,
    url := "https://a.example/y", headers := [] }

/-- A plain GET init with no fired signal. -/
def init0 : RequestInit := { method := "GET", signalAborted := false }

/-- C1: for every normalized policy with `maxAttempts = n ≥ 1` and every
sequence of transport outcomes, one call to `_fetchWithRetry` invokes the
transport at most `n` times, and the trailing post-loop fetch after the
for-loop is never executed. -/
theorem c1_retry_loop_at_most_n_calls (env : TimeEnv) (transport : ℕ → Outcome)
    (url : Input) (init : RequestInit) (opts : Options) (n : ℕ)
    (hn : opts.maxAttempts = (n : ℚ)) (h1 : 1 ≤ n) :
    (_fetchWithRetry env transport url init opts).calls ≤ n ∧
    (_fetchWithRetry env transport url init opts).postLoop = false := by
  unfold _fetchWithRetry
  have hfuel : Int.toNat ⌈opts.maxAttempts⌉ = n := by rw [hn]; simp
  rw [hfuel]
  have hb := _retryLoop_bound env transport n 0 url init opts 0 ?_ ?_
  · simpa using hb
  · rw [hn]
    exact_mod_cast Nat.pos_of_ne_zero (by omega)
  · rw [hn]
    push_cast
    linarith

/-- Witness for C1 at a concrete input: the default policy (3 attempts)
against a transport that always answers 500 makes at most 3 calls and never
reaches the post-loop fetch. -/
theorem c1_retry_loop_at_most_n_calls_witness :
    (_fetchWithRetry env0 (fun _ => .ok resp500) "u" init0 _DEFAULT).calls ≤ 3 ∧
    (_fetchWithRetry env0 (fun _ => .ok resp500) "u" init0 _DEFAULT).postLoop = false :=
  c1_retry_loop_at_most_n_calls env0 (fun _ => .ok resp500) "u" init0 _DEFAULT 3
    (by with_unfolding_all decide) (by decide)

/-- C2 (amended): with `redirectPolicy = error`, a 3xx response received
while at least one further attempt remains (`maxAttempts ≥ 2`) throws a
`RedirectError` carrying the response status after exactly 1 transport
call, is never retried, and `_shouldNotRetry` forces the attempt budget to
zero when it throws. -/
theorem c2_redirect_error_fatal (env : TimeEnv) (transport : ℕ → Outcome) (url : Input)
    (init : RequestInit) (opts : Options) (r : Response)
    (hred : opts.redirect = .error) (h2 : (2 : ℚ) ≤ opts.maxAttempts)
    (hab : init.signalAborted = false) (hnat : opts.native = false)
    (hok : r.ok = false) (h3 : 300 ≤ r.status) (h4 : r.status < 400)
    (htr : transport 0 = .ok r) :
    _fetchWithRetry env transport url init opts =
      ⟨.error (.redirectErr r.status (redirectMsg r)), 1, false⟩ ∧
    _shouldNotRetry env 0 init opts (some r) =
      .error (.redirectErr r.status (redirectMsg r), { opts with maxAttempts := 0 }) := by
  have hc1 : ¬(((0 : ℕ) : ℚ) ≥ opts.maxAttempts - 1 ∨ init.signalAborted = true) := by
    rw [hab]
    push_cast
    simp only [Bool.false_eq_true, or_false]
    push_neg
    linarith
  have hc2 : ¬(r.ok = true ∨ _shouldCorrectRequest r = true ∨ opts.native = true) := by
    simp only [hok, hnat, _shouldCorrectRequest, Bool.false_eq_true, false_or, or_false,
      Bool.and_eq_true, decide_eq_true_eq]
    omega
  have hc3 : ¬(_shouldRedirect r = true ∧ opts.redirect = .manual) := by
    rw [hred]
    simp
  have hc4 : _shouldRedirect r = true ∧ opts.redirect = .error := by
    refine ⟨?_, hred⟩
    simp only [_shouldRedirect, Bool.and_eq_true, decide_eq_true_eq]
    omega
  have hsr : _shouldNotRetry env 0 init opts (some r) =
      .error (.redirectErr r.status (redirectMsg r), { opts with maxAttempts := 0 }) := by
    unfold _shouldNotRetry
    rw [if_neg hc1]
    dsimp only
    rw [if_neg hc2, if_neg hc3, if_pos hc4]
  refine ⟨?_, hsr⟩
  have hceil : (2 : ℤ) ≤ ⌈opts.maxAttempts⌉ := by
    have hm := Int.ceil_mono h2
    simpa using hm
  obtain ⟨f, hf⟩ : ∃ f, Int.toNat ⌈opts.maxAttempts⌉ = f + 1 :=
    ⟨Int.toNat ⌈opts.maxAttempts⌉ - 1, by omega⟩
  unfold _fetchWithRetry
  rw [hf, _retryLoop, if_pos (by push_cast; linarith)]
  unfold _attemptStep
  rw [htr]
  dsimp only
  rw [hsr]
  dsimp only
  unfold _catchStep
  by_cases hs : (FetchErr.redirectErr r.status (redirectMsg r)).isSentinel = true
  · rw [if_pos hs]
  · rw [if_neg hs]
    have hsr2 : _shouldNotRetry env 0 init { opts with maxAttempts := 0 } none =
        .ok (true, { opts with maxAttempts := 0 }) := by
      unfold _shouldNotRetry
      rw [if_pos]
      left
      simp only [Options.maxAttempts]
      push_cast
      norm_num
    rw [hsr2]

/-- Witness for C2 at a concrete input: the default policy with
`redirect = error` (3 attempts) against a transport answering 301. -/
theorem c2_redirect_error_fatal_witness :
    _fetchWithRetry env0 (fun _ => .ok resp301) "u" init0
      { _DEFAULT with redirect := .error } =
      ⟨.error (.redirectErr resp301.status (redirectMsg resp301)), 1, false⟩ ∧
    _shouldNotRetry env0 0 init0 { _DEFAULT with redirect := .error } (some resp301) =
      .error (.redirectErr resp301.status (redirectMsg resp301),
        { { _DEFAULT with redirect := Redirect.error } with maxAttempts := 0 }) :=
  c2_redirect_error_fatal env0 (fun _ => .ok resp301) "u" init0
    { _DEFAULT with redirect := .error } resp301 rfl (by with_unfolding_all decide) rfl rfl
    rfl (by decide) (by decide) rfl

/-- Counterexample to C2 as stated: with `maxAttempts = 1` (which the claim
includes) and `redirect = error`, a 301 response makes the retry loop
return the redirect response after 1 call — no `RedirectError` is
thrown. -/
theorem c2_counterexample_maxAttempts_one :
    _fetchWithRetry env0 (fun _ => .ok resp301) "u" init0
      { _DEFAULT with maxAttempts := 1, redirect := .error } =
      ⟨.ok resp301, 1, false⟩ := by
  with_unfolding_all decide

/-- C3: `retry: false` normalizes the attempt budget to 0, the loop body
never runs, and the trailing fetch performs exactly 1 transport call; this
is observably equivalent to `maxAttempts = 1`: in both cases exactly 1
transport call is made (even on failure) and the single outcome — response
or thrown error — is returned or propagated unchanged. -/
theorem c3_retry_false_single_call (env : TimeEnv) (transport : ℕ → Outcome)
    (url : Input) (init : RequestInit) (opts : Options) (fo : FetchyOptions) :
    (_getOptions (some { fo with retry := some (.inl false) })).maxAttempts = 0 ∧
    (_fetchWithRetry env transport url init { opts with maxAttempts := 0 }).calls = 1 ∧
    (_fetchWithRetry env transport url init { opts with maxAttempts := 1 }).calls = 1 ∧
    (_fetchWithRetry env transport url init { opts with maxAttempts := 0 }).outcome =
      (match transport 0 with
       | .ok r => .ok r
       | .thrown t => .error (.thrown t)) ∧
    (_fetchWithRetry env transport url init { opts with maxAttempts := 1 }).outcome =
      (match transport 0 with
       | .ok r => .ok r
       | .thrown t => .error (.thrown t)) := by
  have h0 : _fetchWithRetry env transport url init { opts with maxAttempts := 0 } =
      _postLoopFetch transport 0 := by
    unfold _fetchWithRetry
    have hf : Int.toNat ⌈({ opts with maxAttempts := (0 : ℚ) } : Options).maxAttempts⌉ = 0 := by
      simp [Options.maxAttempts]
    rw [hf, _retryLoop]
  have hsr1 : ∀ resp, _shouldNotRetry env 0 init { opts with maxAttempts := 1 } resp =
      .ok (true, { opts with maxAttempts := 1 }) := by
    intro resp
    unfold _shouldNotRetry
    rw [if_pos]
    left
    simp only [Options.maxAttempts]
    norm_num
  have h1 : _fetchWithRetry env transport url init { opts with maxAttempts := 1 } =
      (match transport 0 with
       | .ok r => (⟨.ok r, 1, false⟩ : RunResult)
       | .thrown t => (⟨.error (.thrown t), 1, false⟩ : RunResult)) := by
    unfold _fetchWithRetry
    have hf : Int.toNat ⌈({ opts with maxAttempts := (1 : ℚ) } : Options).maxAttempts⌉ = 1 := by
      simp [Options.maxAttempts]
    rw [hf, _retryLoop, if_pos (by simp [Options.maxAttempts])]
    unfold _attemptStep
    rcases ht : transport 0 with r | t
    · dsimp only
      rw [hsr1 (some r)]
    · dsimp only
      unfold _catchStep
      by_cases hs : (FetchErr.thrown t).isSentinel = true
      · rw [if_pos hs]
      · rw [if_neg hs, hsr1 none]
  refine ⟨rfl, ?_, ?_, ?_, ?_⟩ <;> rcases ht : transport 0 with r | t <;>
    simp [h0, h1, ht, _postLoopFetch]

/-- C4: the retry decision of the variant carrying the retryable status
set (`_shouldRetry` of `part_006`) retries a response only when its status
is in `zstatusCodes`; under the default configuration every status in
{500, 502, 503, 504, 408, 429} is eligible for retry (attempts remaining,
no retry-hint headers, interval below the ceiling), and a response status
outside the set is never retried. -/
theorem c4_retry_only_retryable_statuses (env : TimeEnv) :
    (∀ (count : ℕ) (opts : V6.Options) (r : Response),
        V6._shouldRetry env count opts (.inl r) = true → r.status ∈ opts.zstatusCodes) ∧
    (∀ s, s ∈ V6._DEFAULT.zstatusCodes →
        V6._shouldRetry env 0 V6._DEFAULT (.inl ⟨false, s, "", false, "u", []⟩) = true) ∧
    (∀ (count : ℕ) (opts : V6.Options) (r : Response), r.status ∉ opts.zstatusCodes →
        V6._shouldRetry env count opts (.inl r) = false) := by
  refine ⟨?_, ?_, ?_⟩
  · intro count opts r h
    unfold V6._shouldRetry at h
    split at h
    · exact absurd h (by simp)
    · dsimp only at h
      split at h
      · exact absurd h (by simp)
      · next hcond =>
        push_neg at hcond
        exact hcond.2
  · intro s hs
    unfold V6._shouldRetry
    rw [if_neg (by norm_num [V6._DEFAULT])]
    dsimp only
    rw [if_neg (by push_neg; exact ⟨by simp [V6._DEFAULT], hs⟩)]
    have hint : V6._getNextInterval env 0 V6._DEFAULT ([] : Headers) = 3 := by
      unfold V6._getNextInterval
      rw [if_neg (by simp [V6._DEFAULT, Headers.has])]
      norm_num [V6._DEFAULT]
    rw [if_neg (by rw [hint]; norm_num [V6._DEFAULT])]
  · intro count opts r hmem
    unfold V6._shouldRetry
    split
    · rfl
    · dsimp only
      rw [if_pos (Or.inr hmem)]

/-- Witness for C4 at concrete inputs: under the defaults, a 500 response
is retried at the first attempt and a 501 response is not. -/
theorem c4_retry_only_retryable_statuses_witness :
    V6._shouldRetry env0 0 V6._DEFAULT (.inl ⟨false, 500, "", false, "u", []⟩) = true ∧
    V6._shouldRetry env0 0 V6._DEFAULT (.inl ⟨false, 501, "", false, "u", []⟩) = false :=
  ⟨(c4_retry_only_retryable_statuses env0).2.1 500 (by decide),
   (c4_retry_only_retryable_statuses env0).2.2 0 V6._DEFAULT ⟨false, 501, "", false, "u", []⟩
     (by decide)⟩

/-- C5 (amended): when the Retry-After header is present but its trimmed
value parses neither as an integer prefix nor as a date, the interval
calculator (a total function — it cannot throw) does not fall back to the
exponential-backoff value: it returns Infinity (`⊤`), which exceeds every
`maxInterval`, so the decision step then stops retrying. -/
theorem c5_unparseable_header_gives_infinity (env : TimeEnv) (count : ℕ) (opts : Options)
    (r : Response)
    (hra : opts.retryAfter = true)
    (hhas : r.headers.has "Retry-After" = true)
    (hint : parseIntJS (((r.headers.get "Retry-After").map String.trim).getD "") = none)
    (hdate : env.dateParse (((r.headers.get "Retry-After").map String.trim).getD "") = none) :
    _getNextInterval env count opts (some r) = ⊤ ∧
    ((opts.maxInterval : ℚ) : WithTop ℚ) < _getNextInterval env count opts (some r) ∧
    _intervalStep env count opts (some r) = .ok (true, opts) := by
  have hp : _parseRetryAfter env (((r.headers.get "Retry-After").map String.trim).getD "") =
      ⊤ := by
    unfold _parseRetryAfter
    by_cases hε : ((r.headers.get "Retry-After").map String.trim).getD "" = ""
    · rw [if_pos hε]
    · rw [if_neg hε, hint]
      dsimp only
      rw [hdate]
  have h1 : _getNextInterval env count opts (some r) = ⊤ := by
    unfold _getNextInterval
    rw [if_pos ⟨hra, by simpa using hhas⟩]
    dsimp only [Option.bind]
    rw [hp]
    exact max_eq_left le_top
  refine ⟨h1, ?_, ?_⟩
  · rw [h1]
    exact WithTop.coe_lt_top _
  · unfold _intervalStep
    rw [if_pos (by rw [h1]; exact WithTop.coe_lt_top _)]

/-- Witness for C5: the defaults (header-respect on) with the header value
"xyz", which neither the integer parser nor the (always-failing) date
parser accepts. -/
theorem c5_unparseable_header_gives_infinity_witness :
    _getNextInterval env0 1 _DEFAULT
      (some { resp500 with headers := [("Retry-After", "xyz")] }) = ⊤ ∧
    ((_DEFAULT.maxInterval : ℚ) : WithTop ℚ) <
      _getNextInterval env0 1 _DEFAULT
        (some { resp500 with headers := [("Retry-After", "xyz")] }) ∧
    _intervalStep env0 1 _DEFAULT
      (some { resp500 with headers := [("Retry-After", "xyz")] }) = .ok (true, _DEFAULT) :=
  c5_unparseable_header_gives_infinity env0 1 _DEFAULT
    { resp500 with headers := [("Retry-After", "xyz")] } rfl
    (by with_unfolding_all decide) (by with_unfolding_all decide) rfl

/-- Counterexample to C5 as stated: with the default policy, attempt index
1 and an unparseable Retry-After value "xyz", the interval calculator does
not return the exponential-backoff interval `min((max 1 3)^1, 30) = 3` (it
returns Infinity). -/
theorem c5_counterexample_unparseable_header :
    _getNextInterval env0 1 _DEFAULT
      (some { resp500 with headers := [("Retry-After", "xyz")] }) ≠
      ((min ((max 1 _DEFAULT.interval) ^ 1) _DEFAULT.maxInterval : ℚ) : WithTop ℚ) := by
  with_unfolding_all decide

/-- C6: with header-respect enabled and a present Retry-After header whose
trimmed value parses to `v` with `v > baseInterval`, the computed wait
equals `max(v, baseInterval) = v`, the header value, not the exponential
one. -/
theorem c6_header_value_priority (env : TimeEnv) (count : ℕ) (opts : Options) (r : Response)
    (v : ℚ)
    (hra : opts.retryAfter = true)
    (hhas : r.headers.has "Retry-After" = true)
    (hp : _parseRetryAfter env (((r.headers.get "Retry-After").map String.trim).getD "") =
      ((v : ℚ) : WithTop ℚ))
    (hv : opts.interval < v) :
    _getNextInterval env count opts (some r) = ((v : ℚ) : WithTop ℚ) := by
  unfold _getNextInterval
  rw [if_pos ⟨hra, by simpa using hhas⟩]
  dsimp only [Option.bind]
  rw [hp, ← WithTop.coe_max, max_eq_left hv.le]

/-- Witness for C6: the defaults (base interval 3) with header value "7"
give a wait of 7 seconds. -/
theorem c6_header_value_priority_witness :
    _getNextInterval env0 2 _DEFAULT
      (some { resp500 with headers := [("Retry-After", "7")] }) = ((7 : ℚ) : WithTop ℚ) :=
  c6_header_value_priority env0 2 _DEFAULT
    { resp500 with headers := [("Retry-After", "7")] } 7 rfl
    (by with_unfolding_all decide) (by with_unfolding_all decide)
    (by with_unfolding_all decide)

/-- C7: when no retry-hint header applies, the computed interval equals
`min(max(1, baseInterval) ^ attemptIndex, maxInterval)`; for a fixed policy
this sequence is non-decreasing in the attempt index and never exceeds
`maxInterval`. -/
theorem c7_exponential_backoff_monotone_capped (env : TimeEnv) (opts : Options)
    (resp : Option Response)
    (hno : ¬(opts.retryAfter = true ∧
      (resp.map (fun r => r.headers.has "Retry-After")).getD false = true)) :
    (∀ n : ℕ, _getNextInterval env n opts resp =
      ((min ((max 1 opts.interval) ^ n) opts.maxInterval : ℚ) : WithTop ℚ)) ∧
    (∀ m n : ℕ, m ≤ n →
      _getNextInterval env m opts resp ≤ _getNextInterval env n opts resp) ∧
    (∀ n : ℕ, _getNextInterval env n opts resp ≤ ((opts.maxInterval : ℚ) : WithTop ℚ)) := by
  have he : ∀ n : ℕ, _getNextInterval env n opts resp =
      ((min ((max 1 opts.interval) ^ n) opts.maxInterval : ℚ) : WithTop ℚ) := by
    intro n
    unfold _getNextInterval
    rw [if_neg hno]
  refine ⟨he, ?_, ?_⟩
  · intro m n hmn
    rw [he m, he n, WithTop.coe_le_coe]
    exact min_le_min (pow_le_pow_right₀ (le_max_left 1 _) hmn) le_rfl
  · intro n
    rw [he n, WithTop.coe_le_coe]
    exact min_le_right _ _

/-- Witness for C7: the defaults with no response headers at attempt
indices 1 and 2. -/
theorem c7_exponential_backoff_monotone_capped_witness :
    _getNextInterval env0 2 _DEFAULT none =
      ((min ((max 1 _DEFAULT.interval) ^ 2) _DEFAULT.maxInterval : ℚ) : WithTop ℚ) ∧
    _getNextInterval env0 1 _DEFAULT none ≤ _getNextInterval env0 2 _DEFAULT none ∧
    _getNextInterval env0 2 _DEFAULT none ≤ ((_DEFAULT.maxInterval : ℚ) : WithTop ℚ) :=
  ⟨(c7_exponential_backoff_monotone_capped env0 _DEFAULT none (by simp)).1 2,
   (c7_exponential_backoff_monotone_capped env0 _DEFAULT none (by simp)).2.1 1 2 (by decide),
   (c7_exponential_backoff_monotone_capped env0 _DEFAULT none (by simp)).2.2 2⟩

/-- C8: the redirect handler returns the target and init unchanged when the
response is not a followed redirect; on a followed 303 it forces the next
method to GET and moves the target to the response URL; on any other
followed redirect it preserves the method and moves the target to the
response URL. -/
theorem c8_redirect_handler (url : Input) (init : RequestInit) (resp : Response) :
    (resp.redirected = false → _handleRedirectResponse url init resp = (url, init)) ∧
    (resp.redirected = true → resp.status = 303 →
      _handleRedirectResponse url init resp = (resp.url, { init with method := "GET" })) ∧
    (resp.redirected = true → resp.status ≠ 303 →
      _handleRedirectResponse url init resp = (resp.url, init)) := by
  unfold _handleRedirectResponse
  refine ⟨fun h => ?_, fun h h3 => ?_, fun h h3 => ?_⟩
  · rw [if_pos (by rw [h]; rfl)]
  · rw [if_neg (by rw [h]; simp), if_pos h3]
  · rw [if_neg (by rw [h]; simp), if_neg h3]

/-- Witness for C8 at concrete inputs: a non-redirected 500, a followed
303, and a followed 301. -/
theorem c8_redirect_handler_witness :
    _handleRedirectResponse "u" init0 resp500 = ("u", init0) ∧
    _handleRedirectResponse "u" init0 { resp301 with redirected := true, status := 303 } =
      ({ resp301 with redirected := true, status := 303 }.url,
       { init0 with method := "GET" }) ∧
    _handleRedirectResponse "u" init0 { resp301 with redirected := true } =
      ({ resp301 with redirected := true }.url, init0) :=
  ⟨(c8_redirect_handler "u" init0 resp500).1 rfl,
   (c8_redirect_handler "u" init0 { resp301 with redirected := true, status := 303 }).2.1
     rfl rfl,
   (c8_redirect_handler "u" init0 { resp301 with redirected := true }).2.2 rfl (by decide)⟩

/-- C9: numeric options supplied with a negative value silently become the
documented defaults (timeout 15, delay 0, interval 3, maxInterval 30,
maxAttempts 3), exactly as undefined values do, and a supplied non-negative
maxAttempts is additionally truncated to an integer. -/
theorem c9_negative_options_get_defaults :
    (∀ q : ℚ, q < 0 →
      _getOptions (some { timeout := some q, delay := some q,
                          retry := some (.inr { maxAttempts := some q, interval := some q,
                                                maxInterval := some q }) }) = _DEFAULT) ∧
    _getOptions none = _DEFAULT ∧
    (∀ q : ℚ, 0 ≤ q →
      (_getOptions (some { retry := some (.inr { maxAttempts := some q }) })).maxAttempts =
        (jsTrunc q : ℚ)) := by
  refine ⟨?_, rfl, ?_⟩
  · intro q hq
    simp only [_getOptions, _getRetryOption, _correctNumber, RetryOptions.prop,
      _DEFAULT_prop, RVal.toNum, RVal.toBool, Option.bind, Option.map, if_pos hq]
    rfl
  · intro q hq
    simp only [_getOptions, _getRetryOption, _correctNumber, RetryOptions.prop,
      _DEFAULT_prop, RVal.toNum, Option.bind, Option.map, if_neg (not_lt.mpr hq)]
    rfl

/-- Witness for C9: all-negative inputs yield the defaults, and
maxAttempts 5/2 is truncated. -/
theorem c9_negative_options_get_defaults_witness :
    _getOptions (some { timeout := some (-1 : ℚ), delay := some (-1 : ℚ),
                        retry := some (.inr { maxAttempts := some (-1 : ℚ),
                                              interval := some (-1 : ℚ),
                                              maxInterval := some (-1 : ℚ) }) }) = _DEFAULT ∧
    (_getOptions (some { retry := some (.inr { maxAttempts := some (5/2 : ℚ) }) })).maxAttempts =
      (jsTrunc (5/2 : ℚ) : ℚ) :=
  ⟨(c9_negative_options_get_defaults).1 (-1) (by norm_num),
   (c9_negative_options_get_defaults).2.2 (5/2) (by norm_num)⟩

/-- C10: `sfetchy` never throws — it is total, returns exactly the `_main`
success value, and returns `none` exactly when `_main` throws (any error:
status, redirect, transport, abort, or parse failure). -/
theorem c10_sfetchy_null_iff_main_throws (env : Env) (transport : ℕ → Outcome)
    (url : Option Input) (options : Option FetchyOptions) (parse : Option ParseMethod) :
    sfetchy env transport url options parse =
      (_main env transport url options parse).toOption ∧
    (sfetchy env transport url options parse = none ↔
      ∃ e, _main env transport url options parse = .error e) := by
  unfold sfetchy
  rcases h : _main env transport url options parse with e | v
  · simp [Except.toOption]
  · simp [Except.toOption]

end Fetchy
